import Mathlib

/-!
Shallow embedding of `src/server.js` (customer-journey mapper).

Conventions used throughout:
* instants are `Nat` milliseconds since the epoch (JS `Date` values compare
  numerically; ISO strings round-trip through `new Date(...)`);
* every outbound HTTP/SDK call is a field of an `Env` record returning
  `Except String _`, the `.error` case standing for a thrown/rejected promise;
* the global `customerEvents` object is a total map `String → List Event`
  (a missing key and an empty list are indistinguishable to the code);
* JS truthiness of credential env-vars and of email strings is modelled by
  explicit emptiness checks.
-/

namespace CustomerJourney

/-- The normalized event object built by the adapters and passed to
`addCustomerEvent` (server.js lines 200-231, 245-250, 267-274, 281-286,
295-300, 331-341, 348-353).  `timestamp` is optional here because the store
contract ("server-assigned fetch timestamp if the event lacks one") speaks
about events without one; every adapter in the source does set it. -/
structure EventInput where
  platform : String
  type : String
  description : String
  details : List (String × String)
  timestamp : Option Nat
  deriving Repr, DecidableEq

/-- An event as it sits in `customerEvents[email]` after `addCustomerEvent`
ran: the timestamp field is always populated. -/
structure Event where
  platform : String
  type : String
  description : String
  details : List (String × String)
  timestamp : Nat
  deriving Repr, DecidableEq

/-- The global in-memory store `customerEvents` (server.js line 15). -/
def EventStore : Type := String → List Event

def emptyStore : EventStore := fun _ => []

/-- The event object produced by the spread
`{...event, timestamp: new Date().toISOString()}` (server.js lines 22-25):
all fields are copied and `timestamp` is set to the server clock `now`,
regardless of any timestamp the input carried. -/
def storedEvent (now : Nat) (ev : EventInput) : Event :=
  { platform := ev.platform, type := ev.type, description := ev.description,
    details := ev.details, timestamp := now }

/-- `addCustomerEvent(email, event)` (server.js lines 18-31): push the spread
event onto the list for `email` (creating it if absent), then if the length
exceeds 50 keep `slice(-50)`, i.e. drop from the front down to the last 50. -/
def addCustomerEvent (now : Nat) (email : String) (event : EventInput)
    (store : EventStore) : EventStore :=
  fun e =>
    if e = email then
      let pushed := store email ++ [storedEvent now event]
      if pushed.length > 50 then pushed.drop (pushed.length - 50) else pushed
    else store e

/-- A sequence of `addCustomerEvent` calls for one identifier, each with its
own server clock reading. -/
def recordAll (email : String) (calls : List (Nat × EventInput))
    (store : EventStore) : EventStore :=
  calls.foldl (fun s c => addCustomerEvent c.1 email c.2 s) store

/-- Appending a batch of adapter-built events at a fixed clock reading, the
way each `forEach(... => addCustomerEvent(email, {...}))` loop does. -/
def appendEvents (now : Nat) (email : String) (l : List EventInput)
    (store : EventStore) : EventStore :=
  l.foldl (fun s ev => addCustomerEvent now email ev s) store

/-! ### Basic facts about the bounded store -/

theorem length_rtake_le {α : Type} (n : Nat) (l : List α) : (l.rtake n).length ≤ n := by
  simp only [List.rtake, List.length_drop]
  omega

theorem rtake_of_length_le {α : Type} {n : Nat} {l : List α} (h : l.length ≤ n) :
    l.rtake n = l := by
  simp only [List.rtake, Nat.sub_eq_zero_of_le h, List.drop_zero]

theorem rtake_append_rtake {α : Type} (n : Nat) (l r : List α) :
    (l.rtake n ++ r).rtake n = (l ++ r).rtake n := by
  simp only [List.rtake_eq_reverse_take_reverse, List.reverse_append, List.reverse_reverse,
    List.take_append_eq_append_take, List.length_reverse, List.take_take,
    Nat.min_eq_left (Nat.sub_le n r.length)]

theorem addCustomerEvent_self (now : Nat) (email : String) (ev : EventInput)
    (store : EventStore) :
    addCustomerEvent now email ev store email =
      (store email ++ [storedEvent now ev]).rtake 50 := by
  simp only [addCustomerEvent, eq_self_iff_true, if_true, List.rtake]
  split
  · rfl
  · next h => rw [Nat.sub_eq_zero_of_le (by omega), List.drop_zero]

theorem addCustomerEvent_other {e email : String} (h : e ≠ email) (now : Nat)
    (ev : EventInput) (store : EventStore) :
    addCustomerEvent now email ev store e = store e := by
  simp [addCustomerEvent, h]

theorem length_addCustomerEvent_le (now : Nat) (email : String) (ev : EventInput)
    (store : EventStore) :
    (addCustomerEvent now email ev store email).length ≤ 50 := by
  rw [addCustomerEvent_self]
  exact length_rtake_le 50 _

theorem recordAll_self (email : String) (calls : List (Nat × EventInput))
    (store : EventStore) (h : (store email).length ≤ 50) :
    recordAll email calls store email =
      (store email ++ calls.map (fun c => storedEvent c.1 c.2)).rtake 50 := by
  induction calls generalizing store with
  | nil => simp [recordAll, rtake_of_length_le h]
  | cons c cs ih =>
    have step := ih (addCustomerEvent c.1 email c.2 store)
      (length_addCustomerEvent_le c.1 email c.2 store)
    simp only [recordAll, List.foldl_cons] at step ⊢
    rw [step, addCustomerEvent_self, rtake_append_rtake, List.map_cons, List.append_assoc,
      List.singleton_append]

theorem recordAll_other {e email : String} (h : e ≠ email)
    (calls : List (Nat × EventInput)) (store : EventStore) :
    recordAll email calls store e = store e := by
  induction calls generalizing store with
  | nil => rfl
  | cons c cs ih =>
    simp only [recordAll, List.foldl_cons] at ih ⊢
    rw [ih, addCustomerEvent_other h]

theorem appendEvents_eq_recordAll (now : Nat) (email : String) (l : List EventInput)
    (store : EventStore) :
    appendEvents now email l store = recordAll email (l.map (fun ev => (now, ev))) store := by
  simp [appendEvents, recordAll, List.foldl_map]

theorem appendEvents_self (now : Nat) (email : String) (l : List EventInput)
    (store : EventStore) (h : (store email).length ≤ 50) :
    appendEvents now email l store email =
      (store email ++ l.map (storedEvent now)).rtake 50 := by
  rw [appendEvents_eq_recordAll, recordAll_self email _ store h, List.map_map]
  rfl

theorem appendEvents_other {e email : String} (h : e ≠ email) (now : Nat)
    (l : List EventInput) (store : EventStore) :
    appendEvents now email l store e = store e := by
  rw [appendEvents_eq_recordAll, recordAll_other h]

theorem appendEvents_append (now : Nat) (email : String) (l₁ l₂ : List EventInput)
    (store : EventStore) :
    appendEvents now email (l₁ ++ l₂) store =
      appendEvents now email l₂ (appendEvents now email l₁ store) := by
  simp [appendEvents, List.foldl_append]

/-! ### External platform records (server.js lines 181-231, 259-276, 321-343) -/

structure StripeCustomer where
  id : String
  deriving Repr, DecidableEq

/-- One element of `stripe.charges.list(...).data`; `amount` is in cents and
`created` in seconds since the epoch, as in the Stripe API. -/
structure Charge where
  id : String
  amount : Nat
  status : String
  created : Nat
  deriving Repr, DecidableEq

structure Price where
  unit_amount : Option Nat
  nickname : Option String
  deriving Repr, DecidableEq

structure SubscriptionItem where
  price : Price
  deriving Repr, DecidableEq

/-- One element of `stripe.subscriptions.list(...).data`. -/
structure StripeSubscription where
  status : String
  created : Nat
  items : List SubscriptionItem
  deriving Repr, DecidableEq

/-- One element of the Customer.io `activities` array. -/
structure Activity where
  type : String
  name : String
  timestamp : Nat
  deriving Repr, DecidableEq

structure IssueState where
  name : String
  deriving Repr, DecidableEq

/-- One node of the Linear GraphQL `issues` result. -/
structure Issue where
  id : String
  title : String
  description : String
  state : IssueState
  createdAt : Nat
  updatedAt : Nat
  deriving Repr, DecidableEq

/-- The process environment and the three external platforms, as the code
observes them.  Each remote call returns `Except String _`; `.error` models a
thrown error / rejected promise caught by the adapter's `try/catch`.  The
`Option` layer on the Customer.io and Linear results models the
`response.data && response.data.activities` (resp. `.data.data.issues`)
guards: `some` when the field is present, `none` when absent. -/
structure Env where
  stripeSecretKey : Option String
  customerIoSiteId : Option String
  customerIoApiKey : Option String
  linearApiKey : Option String
  /-- the server clock, read by `new Date()` during this request -/
  now : Nat
  /-- `stripe.customers.list({email, limit: 1}).data` -/
  listCustomers : String → Except String (List StripeCustomer)
  /-- `stripe.charges.list({customer, limit: 5}).data`, keyed by customer id -/
  listCharges : String → Except String (List Charge)
  /-- `stripe.subscriptions.list({customer, limit: 3}).data`, keyed by customer id -/
  listSubscriptions : String → Except String (List StripeSubscription)
  /-- the Customer.io activities call for an email -/
  customerIoActivities : String → Except String (Option (List Activity))
  /-- the Linear GraphQL query for issues whose description contains the email -/
  linearIssues : String → Except String (Option (List Issue))

/-- JS truthiness of a `process.env` entry: absent or empty string is falsy. -/
def credPresent : Option String → Bool
  | none => false
  | some s => !s.isEmpty

/-! ### Platform adapters -/

/-- The event object built for a charge (server.js lines 200-212).  The JS
description interpolates `charge.amount / 100` (float division); the model
renders whole dollars via `Nat` division — no claim concerns this text.  The
`timestamp` field is the charge's own creation instant,
`new Date(charge.created * 1000).toISOString()`. -/
def chargeEvent (charge : Charge) : EventInput :=
  { platform := "stripe", type := "payment",
    description := "Payment of $" ++ toString (charge.amount / 100) ++ " - " ++ charge.status,
    details := [("amount", toString (charge.amount / 100)), ("status", charge.status),
                ("charge_id", charge.id)],
    timestamp := some (charge.created * 1000) }

/-- `sub.items.data[0]?.price.unit_amount / 100 || 0` (server.js line 224). -/
def subMonthly (sub : StripeSubscription) : Nat :=
  match sub.items.head? with
  | some item =>
    match item.price.unit_amount with
    | some a => a / 100
    | none => 0
  | none => 0

/-- `sub.items.data[0]?.price.nickname || 'Unknown plan'` (server.js line 227). -/
def subPlan (sub : StripeSubscription) : String :=
  match sub.items.head? with
  | some item => item.price.nickname.getD "Unknown plan"
  | none => "Unknown plan"

/-- The event object built for a subscription (server.js lines 220-230);
`timestamp` is the subscription's own creation instant. -/
def subscriptionEvent (sub : StripeSubscription) : EventInput :=
  { platform := "stripe", type := "subscription",
    description := "Subscription " ++ sub.status ++ " - $" ++ toString (subMonthly sub)
      ++ "/month",
    details := [("status", sub.status), ("plan", subPlan sub)],
    timestamp := some (sub.created * 1000) }

/-- `getStripeData` (server.js lines 172-238): no key → return; customer not
found → return; otherwise append an event per charge, then per subscription.
The surrounding `try/catch` only logs, so a failing remote call leaves the
store as it was at that point. -/
def getStripeData (env : Env) (email : String) (store : EventStore) : EventStore :=
  if !credPresent env.stripeSecretKey then store
  else
    match env.listCustomers email with
    | .error _ => store
    | .ok [] => store
    | .ok (customer :: _) =>
      match env.listCharges customer.id with
      | .error _ => store
      | .ok charges =>
        let store1 := charges.foldl (fun s c => addCustomerEvent env.now email (chargeEvent c) s) store
        match env.listSubscriptions customer.id with
        | .error _ => store1
        | .ok subs =>
          subs.foldl (fun s sub => addCustomerEvent env.now email (subscriptionEvent sub) s) store1

/-- Placeholder appended when Customer.io credentials are missing
(server.js lines 245-250); its own `timestamp` field is `new Date()`. -/
def customerIoReadyEvent (now : Nat) : EventInput :=
  { platform := "customer_io", type := "email_engagement",
    description := "Customer.io integration ready - configure API keys",
    details := [], timestamp := some now }

/-- Placeholder appended in the Customer.io `catch` (server.js lines 281-286). -/
def customerIoFailedEvent (now : Nat) : EventInput :=
  { platform := "customer_io", type := "email_engagement",
    description := "Customer.io data fetch failed - check API keys",
    details := [], timestamp := some now }

/-- The event built for one activity (server.js lines 268-274); the JS stores
the whole activity object under `details`, rendered here as its fields. -/
def activityEvent (a : Activity) : EventInput :=
  { platform := "customer_io", type := "email_engagement",
    description := a.type ++ ": " ++ a.name,
    details := [("type", a.type), ("name", a.name)],
    timestamp := some a.timestamp }

/-- `getCustomerIoData` (server.js lines 241-288): missing credentials → one
"integration ready" placeholder; transport failure → one "fetch failed"
placeholder from the `catch`; otherwise up to the first 5 activities. -/
def getCustomerIoData (env : Env) (email : String) (store : EventStore) : EventStore :=
  if !credPresent env.customerIoSiteId || !credPresent env.customerIoApiKey then
    addCustomerEvent env.now email (customerIoReadyEvent env.now) store
  else
    match env.customerIoActivities email with
    | .error _ => addCustomerEvent env.now email (customerIoFailedEvent env.now) store
    | .ok none => store
    | .ok (some activities) =>
      (activities.take 5).foldl (fun s a => addCustomerEvent env.now email (activityEvent a) s) store

/-- Placeholder appended when the Linear key is missing (server.js 295-300). -/
def linearReadyEvent (now : Nat) : EventInput :=
  { platform := "linear", type := "bug_report",
    description := "Linear integration ready - configure API key",
    details := [], timestamp := some now }

/-- Placeholder appended in the Linear `catch` (server.js lines 348-353). -/
def linearFailedEvent (now : Nat) : EventInput :=
  { platform := "linear", type := "bug_report",
    description := "Linear data fetch failed - check API key",
    details := [], timestamp := some now }

/-- The event built for one issue node (server.js lines 332-341); the
timestamp is the issue's `updatedAt` instant. -/
def issueEvent (issue : Issue) : EventInput :=
  { platform := "linear", type := "bug_report",
    description := "Bug: " ++ issue.title ++ " - " ++ issue.state.name,
    details := [("issue_id", issue.id), ("status", issue.state.name)],
    timestamp := some issue.updatedAt }

/-- `getLinearData` (server.js lines 291-355): missing key → one placeholder;
transport failure → one placeholder from the `catch`; otherwise every
matching issue node. -/
def getLinearData (env : Env) (email : String) (store : EventStore) : EventStore :=
  if !credPresent env.linearApiKey then
    addCustomerEvent env.now email (linearReadyEvent env.now) store
  else
    match env.linearIssues email with
    | .error _ => addCustomerEvent env.now email (linearFailedEvent env.now) store
    | .ok none => store
    | .ok (some issues) =>
      issues.foldl (fun s issue => addCustomerEvent env.now email (issueEvent issue) s) store

/-- `refreshCustomerData` (server.js lines 151-169): the three adapters in
order, each awaited to completion before the next starts.  Its own
`try/catch` only logs; in the embedding no adapter can fail, every remote
failure being consumed inside the adapter itself. -/
def refreshCustomerData (env : Env) (email : String) (store : EventStore) : EventStore :=
  getLinearData env email (getCustomerIoData env email (getStripeData env email store))

/-! ### Timeline rendering (server.js lines 74-128, 358-366) -/

/-- One element of the `components` array of the canvas payload: either
`{type:"text", text, style?}` or `{type:"spacer", size}`. -/
inductive Component where
  | text (text : String) (style : Option String)
  | spacer (size : String)
  deriving Repr, DecidableEq

/-- `getEventEmoji` (server.js lines 358-366). -/
def getEventEmoji (platform : String) : String :=
  if platform = "stripe" then "💳"
  else if platform = "customer_io" then "📧"
  else if platform = "linear" then "🐛"
  else if platform = "intercom" then "💬"
  else "📋"

/-- `new Date(t).toLocaleDateString()` — the locale-dependent text is outside
the model and is represented by the decimal instant; no claim concerns the
rendered date text itself. -/
def toLocaleDateString (t : Nat) : String := toString t

/-- `new Date(t).toLocaleTimeString()` — same remark as `toLocaleDateString`. -/
def toLocaleTimeString (t : Nat) : String := toString t

/-- The comparator `(a, b) => new Date(b.timestamp) - new Date(a.timestamp)`
orders greater timestamps first; `Array.prototype.sort` (stable since
ES2019) is modelled by a stable insertion sort for that order. -/
def insertByTimestampDesc (e : Event) : List Event → List Event
  | [] => [e]
  | x :: xs =>
    if x.timestamp ≤ e.timestamp then e :: x :: xs else x :: insertByTimestampDesc e xs

/-- `events.sort((a, b) => new Date(b.timestamp) - new Date(a.timestamp))`
(server.js line 75). -/
def sortEventsDesc (events : List Event) : List Event :=
  events.foldr insertByTimestampDesc []

/-- The three components pushed for one rendered event
(server.js lines 99-113). -/
def eventComponents (event : Event) : List Component :=
  [ Component.text (getEventEmoji event.platform ++ " " ++ toLocaleDateString event.timestamp
      ++ " " ++ toLocaleTimeString event.timestamp) none,
    Component.text ("   " ++ event.description) none,
    Component.spacer "xs" ]

/-- The `components` array built from the sorted timeline
(server.js lines 78-120): header and spacer, then either a "Recent Activity"
header followed by the components of the first 10 events, or the single
loading line when there are no events. -/
def buildComponents (email : String) (sortedEvents : List Event) : List Component :=
  [ Component.text ("🎯 Customer Journey: " ++ email) (some "header"),
    Component.spacer "s" ] ++
  (if sortedEvents.length > 0 then
    Component.text "Recent Activity:" (some "header") ::
      ((sortedEvents.take 10).map eventComponents).flatten
  else
    [ Component.text "Loading customer data... Please refresh in a moment." none ])

/-! ### The response envelope and the inbound payload -/

structure CanvasContent where
  components : List Component
  deriving Repr, DecidableEq

structure Canvas where
  content : CanvasContent
  deriving Repr, DecidableEq

/-- The `{canvas: {content: {components: [...]}}}` envelope every response of
the initialize endpoint is wrapped in. -/
structure CanvasPayload where
  canvas : Canvas
  deriving Repr, DecidableEq

def canvasResponse (components : List Component) : CanvasPayload :=
  { canvas := { content := { components := components } } }

/-- A `{email}`-bearing sub-object of the inbound payload (`user`, `lead` or
`contact`); the field may be absent or the empty string (both falsy in JS). -/
structure ContactRef where
  email : Option String
  deriving Repr, DecidableEq

/-- The shape of `req.body.context` as probed by the handler. -/
structure ContextObj where
  user : Option ContactRef
  lead : Option ContactRef
  contact : Option ContactRef
  deriving Repr, DecidableEq

/-- The inbound JSON body as probed by the handler (server.js lines 39-53). -/
structure RequestBody where
  context : Option ContextObj
  user : Option ContactRef
  lead : Option ContactRef
  contact : Option ContactRef
  deriving Repr, DecidableEq

/-- Truthiness of `x && x.email` for an optional `{email}` object: the object
must be present and its `email` a non-empty string. -/
def truthyEmail : Option ContactRef → Option String
  | none => none
  | some c =>
    match c.email with
    | none => none
    | some e => if e.isEmpty then none else some e

/-- The email-extraction chain (server.js lines 39-53):
`const context = req.body.context || req.body` followed by the five
`else if` probes in source order. -/
def extractCustomerEmail (body : RequestBody) : Option String :=
  let context : ContextObj :=
    match body.context with
    | some c => c
    | none => { user := body.user, lead := body.lead, contact := body.contact }
  match truthyEmail context.user with
  | some e => some e
  | none =>
    match truthyEmail context.lead with
    | some e => some e
    | none =>
      match truthyEmail context.contact with
      | some e => some e
      | none =>
        match truthyEmail body.user with
        | some e => some e
        | none => truthyEmail body.contact

/-- The single component returned when no email is found (server.js 61-64). -/
def noEmailComponents : List Component :=
  [ Component.text "No customer email found" none ]

/-- The single component returned by the outer `catch` (server.js 135-138). -/
def errorComponents : List Component :=
  [ Component.text "Error loading customer journey - check logs" none ]

/-- The body of the `try` block of `/intercom/initialize`
(server.js lines 39-128): extract the email, short-circuit when absent,
otherwise refresh, sort the stored list **in place** (line 75 sorts the very
array held in `customerEvents`), and answer with the built components. -/
def initializeTryBody (env : Env) (body : RequestBody) (store : EventStore) :
    CanvasPayload × EventStore :=
  match extractCustomerEmail body with
  | none => (canvasResponse noEmailComponents, store)
  | some customerEmail =>
    let store1 := refreshCustomerData env customerEmail store
    let sortedEvents := sortEventsDesc (store1 customerEmail)
    let store2 : EventStore := fun e => if e = customerEmail then sortedEvents else store1 e
    (canvasResponse (buildComponents customerEmail sortedEvents), store2)

/-- The outer `try/catch` (server.js lines 34-143) applied to an arbitrary
outcome of the try block: a thrown error is converted into the fixed
error canvas, with whatever store the failure left behind. -/
def handleInitializeCaught (result : Except String (CanvasPayload × EventStore))
    (store : EventStore) : CanvasPayload × EventStore :=
  match result with
  | .ok r => r
  | .error _ => (canvasResponse errorComponents, store)

/-- `POST /intercom/initialize` (server.js lines 34-143).  In the embedding
the try body is total — every remote failure is already consumed at an inner
boundary — so its outcome is always `.ok`. -/
def handleInitialize (env : Env) (body : RequestBody) (store : EventStore) :
    CanvasPayload × EventStore :=
  handleInitializeCaught (.ok (initializeTryBody env body store)) store

/-- The `{message: "received"}` body of the submit endpoint. -/
structure SubmitResponse where
  message : String
  deriving Repr, DecidableEq

/-- `POST /intercom/submit` (server.js lines 146-148): a fixed
acknowledgment, no state change. -/
def handleSubmit (_body : RequestBody) (store : EventStore) :
    SubmitResponse × EventStore :=
  ({ message := "received" }, store)

/-! ### Each adapter appends a computable batch of events -/

/-- The list of events `getStripeData` appends, in order: one per charge,
then one per subscription. -/
def stripeEventInputs (env : Env) (email : String) : List EventInput :=
  if !credPresent env.stripeSecretKey then []
  else
    match env.listCustomers email with
    | .error _ => []
    | .ok [] => []
    | .ok (customer :: _) =>
      match env.listCharges customer.id with
      | .error _ => []
      | .ok charges =>
        charges.map chargeEvent ++
          (match env.listSubscriptions customer.id with
           | .error _ => []
           | .ok subs => subs.map subscriptionEvent)

theorem getStripeData_eq (env : Env) (email : String) (store : EventStore) :
    getStripeData env email store =
      appendEvents env.now email (stripeEventInputs env email) store := by
  unfold getStripeData stripeEventInputs
  split
  · rfl
  · split
    · rfl
    · rfl
    · split
      · rfl
      · split
        · simp only [appendEvents, List.append_nil, List.foldl_map]
        · rw [appendEvents_append]
          simp only [appendEvents, List.foldl_map]

/-- The list of events `getCustomerIoData` appends. -/
def customerIoEventInputs (env : Env) (email : String) : List EventInput :=
  if !credPresent env.customerIoSiteId || !credPresent env.customerIoApiKey then
    [customerIoReadyEvent env.now]
  else
    match env.customerIoActivities email with
    | .error _ => [customerIoFailedEvent env.now]
    | .ok none => []
    | .ok (some activities) => (activities.take 5).map activityEvent

theorem getCustomerIoData_eq (env : Env) (email : String) (store : EventStore) :
    getCustomerIoData env email store =
      appendEvents env.now email (customerIoEventInputs env email) store := by
  unfold getCustomerIoData customerIoEventInputs
  split
  · rfl
  · split
    · rfl
    · rfl
    · simp only [appendEvents, List.foldl_map]

/-- The list of events `getLinearData` appends. -/
def linearEventInputs (env : Env) (email : String) : List EventInput :=
  if !credPresent env.linearApiKey then [linearReadyEvent env.now]
  else
    match env.linearIssues email with
    | .error _ => [linearFailedEvent env.now]
    | .ok none => []
    | .ok (some issues) => issues.map issueEvent

theorem getLinearData_eq (env : Env) (email : String) (store : EventStore) :
    getLinearData env email store =
      appendEvents env.now email (linearEventInputs env email) store := by
  unfold getLinearData linearEventInputs
  split
  · rfl
  · split
    · rfl
    · rfl
    · simp only [appendEvents, List.foldl_map]

/-- All events one `refreshCustomerData` call appends, in order: payments
first, then engagement, then issues. -/
def refreshEventInputs (env : Env) (email : String) : List EventInput :=
  stripeEventInputs env email ++ customerIoEventInputs env email ++ linearEventInputs env email

theorem refreshCustomerData_eq (env : Env) (email : String) (store : EventStore) :
    refreshCustomerData env email store =
      appendEvents env.now email (refreshEventInputs env email) store := by
  rw [refreshCustomerData, getStripeData_eq, getCustomerIoData_eq, getLinearData_eq,
    refreshEventInputs, appendEvents_append, appendEvents_append]

theorem refreshCustomerData_other {e email : String} (h : e ≠ email) (env : Env)
    (store : EventStore) :
    refreshCustomerData env email store e = store e := by
  rw [refreshCustomerData_eq, appendEvents_other h]

theorem refreshCustomerData_self (env : Env) (email : String) (store : EventStore)
    (h : (store email).length ≤ 50) :
    refreshCustomerData env email store email =
      (store email ++ (refreshEventInputs env email).map (storedEvent env.now)).rtake 50 := by
  rw [refreshCustomerData_eq, appendEvents_self env.now email _ store h]

/-! ### Facts about the sort and the rendered components -/

theorem mem_insertByTimestampDesc {y e : Event} {l : List Event}
    (h : y ∈ insertByTimestampDesc e l) : y = e ∨ y ∈ l := by
  induction l with
  | nil => simpa [insertByTimestampDesc] using h
  | cons x xs ih =>
    by_cases hc : x.timestamp ≤ e.timestamp
    · rw [insertByTimestampDesc, if_pos hc] at h
      exact List.mem_cons.mp h
    · rw [insertByTimestampDesc, if_neg hc] at h
      rcases List.mem_cons.mp h with rfl | h'
      · exact Or.inr (List.mem_cons_self _ _)
      · rcases ih h' with h'' | h''
        · exact Or.inl h''
        · exact Or.inr (List.mem_cons_of_mem x h'')

theorem pairwise_insertByTimestampDesc {e : Event} {l : List Event}
    (h : List.Pairwise (fun a b => b.timestamp ≤ a.timestamp) l) :
    List.Pairwise (fun a b => b.timestamp ≤ a.timestamp) (insertByTimestampDesc e l) := by
  induction l with
  | nil => simp [insertByTimestampDesc]
  | cons x xs ih =>
    rcases List.pairwise_cons.mp h with ⟨hx, hxs⟩
    simp only [insertByTimestampDesc]
    split
    · next hle =>
      refine List.pairwise_cons.mpr ⟨?_, h⟩
      intro y hy
      rcases List.mem_cons.mp hy with rfl | hy
      · exact hle
      · exact le_trans (hx y hy) hle
    · next hgt =>
      refine List.pairwise_cons.mpr ⟨?_, ih hxs⟩
      intro y hy
      rcases mem_insertByTimestampDesc hy with rfl | hy
      · omega
      · exact hx y hy

theorem sortEventsDesc_pairwise (events : List Event) :
    List.Pairwise (fun a b => b.timestamp ≤ a.timestamp) (sortEventsDesc events) := by
  induction events with
  | nil => simp [sortEventsDesc]
  | cons e es ih => exact pairwise_insertByTimestampDesc ih

/-- Recognizes the per-event trailing `{type:"spacer", size:"xs"}` marker;
each rendered event emits exactly one and nothing else does, so counting
these counts the rendered events. -/
def isEventSpacer : Component → Bool
  | .spacer s => s == "xs"
  | _ => false

def eventEntryCount (comps : List Component) : Nat :=
  (comps.filter isEventSpacer).length

theorem filter_eventComponents (e : Event) :
    (eventComponents e).filter isEventSpacer = [Component.spacer "xs"] := rfl

theorem eventEntryCount_flatten (l : List Event) :
    eventEntryCount ((l.map eventComponents).flatten) = l.length := by
  induction l with
  | nil => rfl
  | cons e es ih =>
    simp only [eventEntryCount, List.map_cons, List.flatten_cons, List.filter_append,
      List.length_append] at ih ⊢
    rw [filter_eventComponents, ih]
    simp only [List.length_cons, List.length_nil]
    omega

theorem eventEntryCount_buildComponents (email : String) (sorted : List Event) :
    eventEntryCount (buildComponents email sorted) = min sorted.length 10 := by
  unfold buildComponents
  split
  · next hpos =>
    have h10 := eventEntryCount_flatten (sorted.take 10)
    unfold eventEntryCount at h10 ⊢
    rw [List.filter_append,
      show List.filter isEventSpacer
        [Component.text ("🎯 Customer Journey: " ++ email) (some "header"),
         Component.spacer "s"] = [] from rfl,
      List.nil_append,
      List.filter_cons_of_neg (by decide),
      h10, List.length_take, Nat.min_comm]
  · next hzero =>
    have h0 : sorted.length = 0 := by omega
    rw [h0]
    rfl

/-- Recognizes a `{type:"text", ...}` component (a rendered line). -/
def isTextLine : Component → Bool
  | .text _ _ => true
  | .spacer _ => false

/-! ### Concrete fixtures used by the claim theorems and their witnesses -/

/-- A charge created at epoch-second 1700000000, i.e. at instant
1700000000000 ms. -/
def c1Charge : Charge :=
  { id := "ch_1", amount := 2500, status := "succeeded", created := 1700000000 }

/-- A configured-Stripe environment observed at server clock 9999 whose only
record is `c1Charge`. -/
def c1Env : Env :=
  { stripeSecretKey := some "sk_test", customerIoSiteId := none, customerIoApiKey := none,
    linearApiKey := none, now := 9999,
    listCustomers := fun _ => .ok [{ id := "cus_1" }],
    listCharges := fun _ => .ok [c1Charge],
    listSubscriptions := fun _ => .ok [],
    customerIoActivities := fun _ => .ok none,
    linearIssues := fun _ => .ok none }

/-! ### The claims -/

/-- C1: REFUTED — the code contradicts the claim (and the adapters' own
intent).  The Payments Adapter does build its event with the charge's own
creation instant (`timestamp: new Date(charge.created * 1000).toISOString()`,
first conjunct), but `addCustomerEvent` spreads the event and then assigns
`timestamp: new Date().toISOString()` *after* the spread, so the stored event
always carries the fetch time (second conjunct: fetch clock 9999, not the
creation instant 1700000000000), and the server timestamp is assigned
unconditionally, not only "if the event lacks one" (third conjunct: the
stored timestamp is `now` whatever the input's timestamp field was). -/
theorem fetch_time_overwrites_creation_time :
    (chargeEvent c1Charge).timestamp = some 1700000000000 ∧
    ((getStripeData c1Env "a@b.co" emptyStore) "a@b.co").map Event.timestamp = [9999] ∧
    (∀ (now : Nat) (ev : EventInput), (storedEvent now ev).timestamp = now) := by
  refine ⟨rfl, by decide, fun _ _ => rfl⟩

/-- C2: for any store whose lists respect the bound, any sequence of
`addCustomerEvent` calls for one identifier keeps every list at ≤ 50 events
(so the bound is maintained at every intermediate state, each prefix being
itself such a sequence), and appending 51 events to an identifier with an
empty list leaves exactly the last-appended 50, the oldest entry dropped. -/
theorem eventList_bounded_and_evicts_oldest (email : String)
    (calls : List (Nat × EventInput)) (store : EventStore)
    (hstore : ∀ e, (store e).length ≤ 50) :
    (∀ e, ((recordAll email calls store) e).length ≤ 50) ∧
    (store email = [] → calls.length = 51 →
      recordAll email calls store email =
        (calls.map (fun c => storedEvent c.1 c.2)).drop 1) := by
  constructor
  · intro e
    by_cases he : e = email
    · subst he
      rw [recordAll_self e calls store (hstore e)]
      exact length_rtake_le 50 _
    · rw [recordAll_other he]
      exact hstore e
  · intro hempty hlen
    rw [recordAll_self email calls store (hstore email), hempty, List.nil_append]
    unfold List.rtake
    rw [List.length_map, hlen]

def c2Input : EventInput :=
  { platform := "intercom", type := "note", description := "n", details := [],
    timestamp := none }

def c2Calls : List (Nat × EventInput) :=
  (List.range 51).map (fun i => (i, c2Input))

theorem eventList_bounded_and_evicts_oldest_witness :
    recordAll "a@b.co" c2Calls emptyStore "a@b.co" =
      (c2Calls.map (fun c => storedEvent c.1 c.2)).drop 1 :=
  (eventList_bounded_and_evicts_oldest "a@b.co" c2Calls emptyStore
    (fun _ => Nat.zero_le 50)).2 rfl (by decide)

/-- C8: on an empty stored list the renderer emits exactly the header line
(which carries the customer identifier), the spacer, and one informational
line; among text lines there are exactly the header and that one line; and
for every stored list the header line is the first block of the sequence. -/
theorem render_empty_list (email : String) (events : List Event) :
    buildComponents email [] =
      [ Component.text ("🎯 Customer Journey: " ++ email) (some "header"),
        Component.spacer "s",
        Component.text "Loading customer data... Please refresh in a moment." none ] ∧
    ((buildComponents email []).filter isTextLine).length = 2 ∧
    (buildComponents email events).head? =
      some (Component.text ("🎯 Customer Journey: " ++ email) (some "header")) := by
  exact ⟨rfl, rfl, rfl⟩

/-- C9: the submit endpoint answers the fixed `{message:"received"}` body for
every payload and leaves the store untouched. -/
theorem submit_fixed_acknowledgment (body : RequestBody) (store : EventStore) :
    handleSubmit body store = ({ message := "received" }, store) := rfl

/-- C4: the sorted list fed to the renderer is ordered by timestamp
descending; three events at timestamps T1 < T2 < T3 come out as T3, T2, T1;
and the rendered components contain at most the first 10 events however many
are stored (exactly `min length 10` per-event blocks). -/
theorem render_sorted_desc_and_top10 (events : List Event) (email : String)
    (e1 e2 e3 : Event) (h12 : e1.timestamp < e2.timestamp)
    (h23 : e2.timestamp < e3.timestamp) :
    List.Pairwise (fun a b => b.timestamp ≤ a.timestamp) (sortEventsDesc events) ∧
    sortEventsDesc [e1, e2, e3] = [e3, e2, e1] ∧
    eventEntryCount (buildComponents email (sortEventsDesc events)) =
      min (sortEventsDesc events).length 10 ∧
    eventEntryCount (buildComponents email (sortEventsDesc events)) ≤ 10 := by
  refine ⟨sortEventsDesc_pairwise events, ?_, eventEntryCount_buildComponents email _, ?_⟩
  · simp only [sortEventsDesc, List.foldr_cons, List.foldr_nil, insertByTimestampDesc]
    rw [if_neg (by omega)]
    simp only [insertByTimestampDesc]
    rw [if_neg (by omega), if_neg (by omega)]
  · rw [eventEntryCount_buildComponents]
    exact Nat.min_le_right _ _

/-- An event fixture with a given timestamp. -/
def evAt (t : Nat) : Event :=
  { platform := "stripe", type := "payment", description := "d", details := [],
    timestamp := t }

theorem render_sorted_desc_and_top10_witness :
    sortEventsDesc [evAt 1, evAt 2, evAt 3] = [evAt 3, evAt 2, evAt 1] :=
  (render_sorted_desc_and_top10 [] "a@b.co" (evAt 1) (evAt 2) (evAt 3)
    (by decide) (by decide)).2.1

/-- C3: with the Engagement platform configured but failing (transport
error), a refresh still records, for the same identifier and in adapter
order, all the Payments events, then the single engagement failure
placeholder, then all the Issues events: the engagement failure aborts
nothing.  (The bound on the batch only keeps the 50-cap eviction out of the
picture.) -/
theorem refresh_order_and_failure_containment
    (env : Env) (email : String) (store : EventStore) (err : String)
    (hsite : credPresent env.customerIoSiteId = true)
    (hkey : credPresent env.customerIoApiKey = true)
    (hfail : env.customerIoActivities email = .error err)
    (hempty : store email = [])
    (hsmall : (stripeEventInputs env email).length + 1 +
      (linearEventInputs env email).length ≤ 50) :
    refreshCustomerData env email store email =
      ((stripeEventInputs env email ++ [customerIoFailedEvent env.now] ++
        linearEventInputs env email).map (storedEvent env.now)) := by
  have hcio : customerIoEventInputs env email = [customerIoFailedEvent env.now] := by
    unfold customerIoEventInputs
    rw [hsite, hkey, hfail]
    rfl
  rw [refreshCustomerData_self env email store (by rw [hempty]; exact Nat.zero_le 50),
    hempty, List.nil_append, refreshEventInputs, hcio]
  refine rtake_of_length_le ?_
  simp only [List.length_map, List.length_append, List.length_cons, List.length_nil]
  omega

def c3Charge : Charge :=
  { id := "ch_2", amount := 1000, status := "succeeded", created := 100 }

def c3Issue : Issue :=
  { id := "i_1", title := "Crash on login", description := "reported by a@b.co",
    state := { name := "Open" }, createdAt := 5, updatedAt := 7 }

/-- Everything configured; the Customer.io call fails with a transport
error; Stripe has one charge and Linear one matching issue. -/
def c3Env : Env :=
  { stripeSecretKey := some "sk", customerIoSiteId := some "site",
    customerIoApiKey := some "key", linearApiKey := some "lin", now := 42,
    listCustomers := fun _ => .ok [{ id := "cus_2" }],
    listCharges := fun _ => .ok [c3Charge],
    listSubscriptions := fun _ => .ok [],
    customerIoActivities := fun _ => .error "ECONNRESET",
    linearIssues := fun _ => .ok (some [c3Issue]) }

theorem refresh_order_and_failure_containment_witness :
    refreshCustomerData c3Env "a@b.co" emptyStore "a@b.co" =
      ((stripeEventInputs c3Env "a@b.co" ++ [customerIoFailedEvent c3Env.now] ++
        linearEventInputs c3Env "a@b.co").map (storedEvent c3Env.now)) :=
  refresh_order_and_failure_containment c3Env "a@b.co" emptyStore "ECONNRESET"
    rfl rfl rfl rfl (by decide)

/-- The extraction rule exactly as the claim words it: the first non-empty
value among the five fixed paths `context.user.email`, `context.lead.email`,
`context.contact.email` (all three requiring a `context` field to exist),
then top-level `user.email`, then top-level `contact.email`. -/
def claimedExtractEmail (body : RequestBody) : Option String :=
  (match body.context with
   | some c => truthyEmail c.user <|> truthyEmail c.lead <|> truthyEmail c.contact
   | none => none) <|>
    truthyEmail body.user <|> truthyEmail body.contact

/-- A payload with no `context` field whose only email sits at top-level
`lead.email` — a path outside the claim's list. -/
def c5Body : RequestBody :=
  { context := none, user := none,
    lead := some { email := some "lead@example.com" }, contact := none }

/-- An environment with no credentials at all, server clock 7. -/
def noCredsEnv : Env :=
  { stripeSecretKey := none, customerIoSiteId := none, customerIoApiKey := none,
    linearApiKey := none, now := 7,
    listCustomers := fun _ => .ok [],
    listCharges := fun _ => .ok [],
    listSubscriptions := fun _ => .ok [],
    customerIoActivities := fun _ => .ok none,
    linearIssues := fun _ => .ok none }

/-- C5 counterexample: on `c5Body` none of the claim's five paths yields an
identifier, so per the claim the handler should answer the informational
block and fetch nothing — but the code falls back to the whole body when
`context` is absent (`req.body.context || req.body`), extracts the top-level
`lead.email`, fetches (the store for that identifier becomes non-empty) and
answers a journey canvas, not the no-email block. -/
theorem webhook_extraction_counterexample :
    claimedExtractEmail c5Body = none ∧
    extractCustomerEmail c5Body = some "lead@example.com" ∧
    (handleInitialize noCredsEnv c5Body emptyStore).2 "lead@example.com" ≠ [] ∧
    (handleInitialize noCredsEnv c5Body emptyStore).1 ≠ canvasResponse noEmailComponents := by
  refine ⟨rfl, rfl, by decide, by decide⟩

/-- The extraction rule as amended: the same five ordered probes, except
that the `context` object falls back to the whole top-level body when the
payload carries no `context` field (so top-level `lead.email` is then also
consulted, in second position). -/
def amendedExtractEmail (body : RequestBody) : Option String :=
  let context : ContextObj :=
    match body.context with
    | some c => c
    | none => { user := body.user, lead := body.lead, contact := body.contact }
  truthyEmail context.user <|> truthyEmail context.lead <|> truthyEmail context.contact <|>
    truthyEmail body.user <|> truthyEmail body.contact

/-- C5 as amended: the handler's extraction is exactly the ordered
first-non-empty probe of `amendedExtractEmail`, and whenever it finds no
identifier the handler answers the single informational block and performs
no fetch (the store is returned untouched). -/
theorem webhook_extraction_amended (env : Env) (body : RequestBody) (store : EventStore) :
    extractCustomerEmail body = amendedExtractEmail body ∧
    (extractCustomerEmail body = none →
      handleInitialize env body store = (canvasResponse noEmailComponents, store) ∧
      noEmailComponents.length = 1) := by
  constructor
  · cases hctx : body.context with
    | some c =>
      simp only [extractCustomerEmail, amendedExtractEmail, hctx]
      cases truthyEmail c.user <;> cases truthyEmail c.lead <;>
        cases truthyEmail c.contact <;> cases truthyEmail body.user <;>
        cases truthyEmail body.contact <;> rfl
    | none =>
      simp only [extractCustomerEmail, amendedExtractEmail, hctx]
      cases truthyEmail body.user <;> cases truthyEmail body.lead <;>
        cases truthyEmail body.contact <;> rfl
  · intro h
    refine ⟨?_, rfl⟩
    unfold handleInitialize handleInitializeCaught initializeTryBody
    rw [h]

/-- A payload carrying no identifier at all. -/
def emptyBody : RequestBody :=
  { context := none, user := none, lead := none, contact := none }

theorem webhook_extraction_amended_witness :
    handleInitialize noCredsEnv emptyBody emptyStore =
      (canvasResponse noEmailComponents, emptyStore) :=
  ((webhook_extraction_amended noCredsEnv emptyBody emptyStore).2 rfl).1

/-- C6: the initialize handler's response is always the render-shaped
`{canvas:{content:{components:[...]}}}` envelope; the try body never leaves
an escaped exception for any environment, payload or store (every remote
failure is consumed at an inner boundary); and for any outcome of the
fetch-and-render path that does raise, the outer catch converts it into that
same envelope holding the single fixed error-display block. -/
theorem initialize_always_canvas_shaped (env : Env) (body : RequestBody)
    (store : EventStore) (result : Except String (CanvasPayload × EventStore)) :
    (handleInitialize env body store).1 =
      canvasResponse (handleInitialize env body store).1.canvas.content.components ∧
    handleInitialize env body store =
      handleInitializeCaught (.ok (initializeTryBody env body store)) store ∧
    (∀ err, result = .error err →
      handleInitializeCaught result store = (canvasResponse errorComponents, store)) ∧
    errorComponents.length = 1 := by
  refine ⟨rfl, rfl, ?_, rfl⟩
  intro err h
  rw [h]
  rfl

theorem initialize_always_canvas_shaped_witness :
    handleInitializeCaught (.error "boom") emptyStore =
      (canvasResponse errorComponents, emptyStore) :=
  (initialize_always_canvas_shaped noCredsEnv emptyBody emptyStore
    (.error "boom")).2.2.1 "boom" rfl

/-- C7: a platform with absent (or empty, hence falsy) credentials never
errors: Stripe degrades to a no-op, Customer.io and Linear each to a single
"integration ready" placeholder appended through the normal store path; and
the initialize response keeps the same envelope shape regardless. -/
theorem missing_credentials_degrade (env : Env) (email : String)
    (body : RequestBody) (store : EventStore) :
    (credPresent env.stripeSecretKey = false → getStripeData env email store = store) ∧
    (credPresent env.customerIoSiteId = false ∨ credPresent env.customerIoApiKey = false →
      getCustomerIoData env email store =
        addCustomerEvent env.now email (customerIoReadyEvent env.now) store) ∧
    (credPresent env.linearApiKey = false →
      getLinearData env email store =
        addCustomerEvent env.now email (linearReadyEvent env.now) store) ∧
    (handleInitialize env body store).1 =
      canvasResponse (handleInitialize env body store).1.canvas.content.components := by
  refine ⟨?_, ?_, ?_, rfl⟩
  · intro h
    simp [getStripeData, h]
  · intro h
    rcases h with h | h <;> simp [getCustomerIoData, h]
  · intro h
    simp [getLinearData, h]

theorem missing_credentials_degrade_witness :
    getStripeData noCredsEnv "a@b.co" emptyStore = emptyStore ∧
    getCustomerIoData noCredsEnv "a@b.co" emptyStore =
      addCustomerEvent noCredsEnv.now "a@b.co" (customerIoReadyEvent noCredsEnv.now) emptyStore ∧
    getLinearData noCredsEnv "a@b.co" emptyStore =
      addCustomerEvent noCredsEnv.now "a@b.co" (linearReadyEvent noCredsEnv.now) emptyStore :=
  ⟨(missing_credentials_degrade noCredsEnv "a@b.co" emptyBody emptyStore).1 rfl,
   (missing_credentials_degrade noCredsEnv "a@b.co" emptyBody emptyStore).2.1 (Or.inl rfl),
   (missing_credentials_degrade noCredsEnv "a@b.co" emptyBody emptyStore).2.2.1 rfl⟩

/-- C10: rendering is not a pure read — `events.sort(...)` on line 75 sorts
the very array held in `customerEvents`.  After a handled request that
extracted `email`, the stored list for `email` is the timestamp-descending
sort of the refreshed list (hence ordered by recency, not by insertion),
while every other identifier's list is exactly what it was before. -/
theorem render_sorts_store_in_place (env : Env) (body : RequestBody)
    (store : EventStore) (email : String)
    (h : extractCustomerEmail body = some email) :
    (handleInitialize env body store).2 email =
      sortEventsDesc (refreshCustomerData env email store email) ∧
    List.Pairwise (fun a b => b.timestamp ≤ a.timestamp)
      ((handleInitialize env body store).2 email) ∧
    (∀ e, e ≠ email → (handleInitialize env body store).2 e = store e) := by
  have h1 : (handleInitialize env body store).2 email =
      sortEventsDesc (refreshCustomerData env email store email) := by
    unfold handleInitialize handleInitializeCaught initializeTryBody
    rw [h]
    show (if email = email then _ else _) = _
    rw [if_pos rfl]
  refine ⟨h1, ?_, ?_⟩
  · rw [h1]
    exact sortEventsDesc_pairwise _
  · intro e he
    have h2 : (handleInitialize env body store).2 e =
        refreshCustomerData env email store e := by
      unfold handleInitialize handleInitializeCaught initializeTryBody
      rw [h]
      show (if e = email then _ else _) = _
      rw [if_neg he]
    rw [h2, refreshCustomerData_other he]

/-- A payload whose identifier sits at `context.user.email`. -/
def c10Body : RequestBody :=
  { context := some { user := some { email := some "a@b.co" }, lead := none, contact := none },
    user := none, lead := none, contact := none }

/-- A store holding two events for `a@b.co` in ascending-timestamp insertion
order, so the in-place sort visibly reorders it. -/
def c10Store : EventStore :=
  fun e => if e = "a@b.co" then [evAt 1, evAt 5] else []

theorem render_sorts_store_in_place_witness :
    (handleInitialize noCredsEnv c10Body c10Store).2 "a@b.co" =
      sortEventsDesc (refreshCustomerData noCredsEnv "a@b.co" c10Store "a@b.co") ∧
    (handleInitialize noCredsEnv c10Body c10Store).2 "a@b.co" ≠ c10Store "a@b.co" :=
  ⟨(render_sorts_store_in_place noCredsEnv c10Body c10Store "a@b.co" rfl).1, by decide⟩

end CustomerJourney
